import Mathlib

/-!
Verification of the document extraction pipeline of `mcp-getweb`.

The definitions below are shallow embeddings of the Rust sources:
  * `src/utils/content_guard.rs` (binary/text classifier),
  * `src/utils/pdf.rs` (PDF routing predicate),
  * `src/utils/readability_extract.rs` (charset decoder, main-content
    selector and extraction orchestrator),
  * `src/tools/url_fetch_tool.rs` (HTML to Markdown transducer).

Byte buffers are modelled as `List Nat` (each entry one octet).  Behavior of
external crates (`encoding_rs`, `chardetng`, `pdf-extract`, the HTML parsers)
is abstracted into explicitly passed function parameters; everything written
in the repository itself is translated directly.
-/

namespace Getweb

/-- ASCII lowercase of one character (Rust `to_ascii_lowercase`). -/
def asciiLowerChar (c : Char) : Char :=
  if 'A' ≤ c && c ≤ 'Z' then Char.ofNat (c.toNat + 32) else c

/-- ASCII lowercase of a string (Rust `str::to_ascii_lowercase`). -/
def asciiLower (s : String) : String :=
  String.mk (s.toList.map asciiLowerChar)

/-- Is the first list a prefix of the second? -/
def listPrefixP [BEq α] : List α → List α → Bool
  | [], _ => true
  | _ :: _, [] => false
  | p :: ps, c :: cs => p == c && listPrefixP ps cs

/-- Does the first list occur as a contiguous run inside the second? -/
def listInfixP [BEq α] (pat : List α) : List α → Bool
  | [] => listPrefixP pat []
  | c :: cs => listPrefixP pat (c :: cs) || listInfixP pat cs

/-- Substring containment (Rust `str::contains` with a literal pattern). -/
def strContains (s pat : String) : Bool :=
  listInfixP pat.toList s.toList

/-- Rust `str::starts_with` with a literal pattern. -/
def startsWithStr (s pat : String) : Bool :=
  listPrefixP pat.toList s.toList

/-- Rust `str::ends_with` with a literal pattern. -/
def endsWithStr (s pat : String) : Bool :=
  listPrefixP pat.toList.reverse s.toList.reverse

/-- Rust `str::trim`: strip leading and trailing whitespace. -/
def rustTrim (s : String) : String :=
  String.mk
    (((s.toList.dropWhile Char.isWhitespace).reverse.dropWhile
      Char.isWhitespace).reverse)

/-- Drop the first `n` characters of a string. -/
def dropChars (s : String) (n : Nat) : String :=
  String.mk (s.toList.drop n)

/-- Split a character list at every character satisfying `p`, keeping empty
pieces (Rust `str::split` semantics). -/
def splitPredAux (p : Char → Bool) : List Char → List (List Char)
  | [] => [[]]
  | x :: xs =>
    if p x then [] :: splitPredAux p xs
    else
      match splitPredAux p xs with
      | h :: t => (x :: h) :: t
      | [] => [[x]]

/-- Rust `str::split` with a predicate. -/
def splitPred (p : Char → Bool) (s : String) : List String :=
  (splitPredAux p s.toList).map String.mk

/-- Rust `str::split` with a single-character separator. -/
def splitChar (c : Char) (s : String) : List String :=
  splitPred (fun x => x == c) s

/-- Rust `&[u8]::starts_with`: `h.len() >= pat.len() && h[..pat.len()] == pat`. -/
def startsWithBytes (h pat : List Nat) : Bool :=
  listPrefixP pat h

/-- `contains_within` from `content_guard.rs`: does `pat` occur inside the
first `limit` bytes of `h` (sliding-window search)? -/
def containsWithin (h pat : List Nat) (limit : Nat) : Bool :=
  listInfixP pat (h.take limit)

/-! ## Binary/Text classifier (`src/utils/content_guard.rs`) -/

/-- `BinaryDetection` from `content_guard.rs`. -/
inductive BinaryDetection where
  | Binary (content_type : Option String)
  | Text
deriving DecidableEq, Repr

/-- The parameter-stripped, lowercased primary MIME token computed at the top
of `detect_binary`: trim, ASCII-lowercase, take the part before the first
`;`, trim again. -/
def mimeMainOf (ctRaw : String) : String :=
  rustTrim ((splitChar ';' (asciiLower (rustTrim ctRaw))).headD "")

/-- The textual whitelist test of `detect_binary`. -/
def isTextualMime (m : String) : Bool :=
  startsWithStr m "text/"
    || m == "application/json"
    || m == "application/xml"
    || m == "application/javascript"
    || m == "application/xhtml+xml"
    || m == "application/x-www-form-urlencoded"

/-- The explicit binary MIME families of `detect_binary`. -/
def isExplicitBinaryMime (m : String) : Bool :=
  startsWithStr m "image/"
    || startsWithStr m "audio/"
    || startsWithStr m "video/"
    || startsWithStr m "font/"
    || m == "application/pdf"
    || m == "application/zip"
    || m == "application/gzip"
    || m == "application/octet-stream"
    || startsWithStr m "application/x-"
    || startsWithStr m "application/vnd."

def PDF_MAGIC : List Nat := [0x25, 0x50, 0x44, 0x46, 0x2D]
def PNG_MAGIC : List Nat := [0x89, 0x50, 0x4E, 0x47, 0x0D, 0x0A, 0x1A, 0x0A]
def JPEG_MAGIC : List Nat := [0xFF, 0xD8, 0xFF]
def GIF_MAGIC : List Nat := [0x47, 0x49, 0x46, 0x38]
def RIFF_MAGIC : List Nat := [0x52, 0x49, 0x46, 0x46]
def WEBP_MAGIC : List Nat := [0x57, 0x45, 0x42, 0x50]
def ZIP_MAGIC : List Nat := [0x50, 0x4B, 0x03, 0x04]
def GZIP_MAGIC : List Nat := [0x1F, 0x8B]
def RAR_MAGIC : List Nat := [0x52, 0x61, 0x72, 0x21]
def SEVEN_Z_MAGIC : List Nat := [0x37, 0x7A, 0xBC, 0xAF, 0x27, 0x1C]
def MP4_FTYP : List Nat := [0x66, 0x74, 0x79, 0x70]

/-- The magic-signature sniffing block of `detect_binary`. -/
def isBinaryByMagic (h : List Nat) : Bool :=
  startsWithBytes h PDF_MAGIC
    || startsWithBytes h PNG_MAGIC
    || startsWithBytes h JPEG_MAGIC
    || startsWithBytes h GIF_MAGIC
    || startsWithBytes h ZIP_MAGIC
    || startsWithBytes h GZIP_MAGIC
    || startsWithBytes h RAR_MAGIC
    || startsWithBytes h SEVEN_Z_MAGIC
    || (startsWithBytes h RIFF_MAGIC && decide (h.length ≥ 12)
          && ((h.drop 8).take 4 == WEBP_MAGIC))
    || containsWithin h MP4_FTYP 64

/-- `detect_binary` from `content_guard.rs`. -/
def detect_binary (content_type : Option String) (head : List Nat) :
    BinaryDetection :=
  match content_type with
  | some ctRaw =>
    let mimeMain := mimeMainOf ctRaw
    if !isTextualMime mimeMain && isExplicitBinaryMime mimeMain then
      .Binary (some mimeMain)
    else if isTextualMime mimeMain then
      .Text
    else if isBinaryByMagic head then
      .Binary none
    else
      .Text
  | none =>
    if isBinaryByMagic head then .Binary none else .Text

/-! ## PDF routing predicate (`src/utils/pdf.rs`) -/

/-- `is_pdf` from `pdf.rs`: content-type contains `application/pdf`
(case-insensitively) or the head bytes start with `%PDF-`. -/
def is_pdf (content_type : Option String) (head : List Nat) : Bool :=
  strContains (asciiLower (content_type.getD "")) "application/pdf"
    || startsWithBytes head PDF_MAGIC

/-! ## Charset decoder (`decode_to_utf8` in `readability_extract.rs`)

The `encoding_rs`/`chardetng` crates are abstracted into an
`EncodingApi` record; `decode_to_utf8` itself is translated verbatim. -/

/-- Abstraction of the external encoding crates: BOM sniffing, label lookup,
decoding (returning the decoded text together with the `had_errors` flag of
`encoding_rs`), and statistical detection (`chardetng` guess). -/
structure EncodingApi where
  forBom : List Nat → Option (String × Nat)
  forLabelNoRepl : String → Option String
  decode : String → List Nat → String × Bool
  guess : List Nat → String

/-- Strip all leading/trailing occurrences of `c` (Rust `trim_matches(c)`). -/
def trimMatchesChar (c : Char) (s : String) : String :=
  String.mk (((s.toList.dropWhile (· == c)).reverse.dropWhile (· == c)).reverse)

/-- The parameter scan inside `extract_charset_label`: walk the `;`-separated
parts after the main MIME token looking for a non-empty `charset=` value. -/
def findCharsetParam : List String → Option String
  | [] => none
  | part :: rest =>
    let kv := rustTrim part
    if startsWithStr (asciiLower kv) "charset=" then
      let v := rustTrim (dropChars kv 8)
      let v := trimMatchesChar '\'' (trimMatchesChar '"' v)
      if v ≠ "" then some v else findCharsetParam rest
    else findCharsetParam rest

/-- `extract_charset_label` from `readability_extract.rs`. -/
def extract_charset_label (content_type : Option String) : Option String :=
  match content_type with
  | none => none
  | some ct => findCharsetParam ((splitChar ';' ct).drop 1)

/-- The statistical-detection fallback (stage 3) of `decode_to_utf8`. -/
def decodeByDetection (api : EncodingApi) (bytes : List Nat) :
    Except String String :=
  if (api.decode (api.guess bytes) bytes).2 then
    .error ("decoding with detected charset produced errors")
  else .ok (api.decode (api.guess bytes) bytes).1

/-- `decode_to_utf8` from `readability_extract.rs`: BOM sniff, then declared
charset, then statistical detection; any decoding errors in the committed
stage are a hard failure. -/
def decode_to_utf8 (api : EncodingApi) (bytes : List Nat)
    (content_type : Option String) : Except String String :=
  match api.forBom bytes with
  | some encOff =>
    if (api.decode encOff.1 (bytes.drop encOff.2)).2 then
      .error "decoding had errors after BOM sniff"
    else .ok (api.decode encOff.1 (bytes.drop encOff.2)).1
  | none =>
    match extract_charset_label content_type with
    | some label =>
      match api.forLabelNoRepl label with
      | some enc =>
        if (api.decode enc bytes).2 then
          .error ("decoding with declared charset produced errors")
        else .ok (api.decode enc bytes).1
      | none => decodeByDetection api bytes
    | none => decodeByDetection api bytes

/-! ## HTML document trees

Both `scraper` (used by the main-content selector) and `markup5ever_rcdom`
(used by the Markdown transducer) expose parsed HTML as a tree of element,
text and auxiliary nodes.  The parsers themselves are external crates, so the
parsed tree is taken as input; everything computed *on* the tree is
translated from the repository. -/

/-- A parsed HTML DOM node.  `container` stands for the node kinds that carry
no element data (Document / Doctype / ProcessingInstruction / Comment): the
tree walkers visit their children but never treat them as elements. -/
inductive HtmlNode where
  | element (tag : String) (attrs : List (String × String))
      (children : List HtmlNode)
  | textNode (content : String)
  | container (children : List HtmlNode)

/-- Tag of an element node. -/
def elemTag : HtmlNode → Option String
  | .element t _ _ => some t
  | _ => none

/-- Attribute lookup on an element node (first attribute with that name). -/
def elemAttr (n : HtmlNode) (name : String) : Option String :=
  match n with
  | .element _ attrs _ => (attrs.find? (fun p => p.1 == name)).map (·.2)
  | _ => none

mutual

/-- `element.text().collect::<String>()` in `scraper`: concatenation of all
descendant text nodes in document order. -/
def collectText : HtmlNode → String
  | .element _ _ cs => collectTextList cs
  | .textNode s => s
  | .container cs => collectTextList cs

def collectTextList : List HtmlNode → String
  | [] => ""
  | n :: ns => collectText n ++ collectTextList ns

end

/-- HTML void elements, which serialize without a closing tag. -/
def voidElements : List String :=
  ["area", "base", "br", "col", "embed", "hr", "img", "input", "link",
   "meta", "param", "source", "track", "wbr"]

/-- Escaping of text content performed by the `html5ever` serializer. -/
def escapeTextChar (c : Char) : String :=
  if c == '&' then "&amp;"
  else if c == '<' then "&lt;"
  else if c == '>' then "&gt;"
  else String.mk [c]

/-- Escaping of attribute values performed by the `html5ever` serializer. -/
def escapeAttrChar (c : Char) : String :=
  if c == '&' then "&amp;"
  else if c == '"' then "&quot;"
  else String.mk [c]

def escapeText (s : String) : String :=
  String.join (s.toList.map escapeTextChar)

def escapeAttr (s : String) : String :=
  String.join (s.toList.map escapeAttrChar)

def serializeAttrs : List (String × String) → String
  | [] => ""
  | (n, v) :: rest =>
    " " ++ n ++ "=" ++ "\"" ++ escapeAttr v ++ "\"" ++ serializeAttrs rest

mutual

/-- `element.html()` in `scraper`: serialize the element including its own
tag. -/
def serializeNode : HtmlNode → String
  | .element tag attrs cs =>
    if voidElements.contains tag then
      "<" ++ tag ++ serializeAttrs attrs ++ ">"
    else
      "<" ++ tag ++ serializeAttrs attrs ++ ">" ++ serializeList cs
        ++ "</" ++ tag ++ ">"
  | .textNode s => escapeText s
  | .container cs => serializeList cs

def serializeList : List HtmlNode → String
  | [] => ""
  | n :: ns => serializeNode n ++ serializeList ns

end

mutual

/-- All element nodes of the tree in depth-first pre-order (the order in
which `scraper`'s `document.select(..)` yields matches). -/
def elementsOf : HtmlNode → List HtmlNode
  | .element t a cs => HtmlNode.element t a cs :: elementsOfList cs
  | .textNode _ => []
  | .container cs => elementsOfList cs

def elementsOfList : List HtmlNode → List HtmlNode
  | [] => []
  | n :: ns => elementsOf n ++ elementsOfList ns

end

/-! ## Main-content selector (`readability_extract.rs`) -/

/-- The CSS selector shapes occurring in `MAIN_SELECTORS`. -/
inductive CSelector where
  | tagSel (t : String)
  | tagAttrSel (t a v : String)
  | attrSel (a v : String)
  | idSel (v : String)
  | clsSel (c : String)

/-- CSS selector whitespace (used to split `class` attribute values). -/
def selWs (c : Char) : Bool :=
  c == ' ' || c == '\t' || c == '\n' || c == '\r' || c == '\x0c'

/-- The whitespace-separated class list of an element, as the `selectors`
crate sees it. -/
def cssClasses (n : HtmlNode) : List String :=
  match elemAttr n "class" with
  | some v => splitPred selWs v
  | none => []

/-- Does a single selector match an element node? -/
def matchesSel : CSelector → HtmlNode → Bool
  | .tagSel t, n => elemTag n == some t
  | .tagAttrSel t a v, n => elemTag n == some t && elemAttr n a == some v
  | .attrSel a v, n => elemAttr n a == some v
  | .idSel v, n => elemAttr n "id" == some v
  | .clsSel c, n => (cssClasses n).contains c

/-- First element of the document matching the selector
(`document.select(&selector).next()`). -/
def firstMatch (doc : HtmlNode) (sel : CSelector) : Option HtmlNode :=
  (elementsOf doc).find? (fun e => matchesSel sel e)

/-- The non-class-selector prefix of `MAIN_SELECTORS`. -/
def mainSelectorsHead : List CSelector :=
  [CSelector.tagSel "article",
   CSelector.tagAttrSel "article" "role" "article",
   CSelector.tagSel "main",
   CSelector.idSel "main",
   CSelector.idSel "main-content",
   CSelector.idSel "mainContent",
   CSelector.idSel "primary-content",
   CSelector.idSel "article",
   CSelector.idSel "article-body",
   CSelector.idSel "articleBody",
   CSelector.idSel "story-body",
   CSelector.idSel "storyBody",
   CSelector.attrSel "role" "main",
   CSelector.attrSel "role" "article"]

/-- The class-selector names forming the tail of `MAIN_SELECTORS`. -/
def mainSelectorClassNames : List String :=
  ["main",
   "main-content",
   "main__content",
   "main-body",
   "primary-content",
   "primary__content",
   "page-content",
   "page__content",
   "content-body",
   "content__body",
   "content__article-body",
   "contentArticle",
   "article-content",
   "article__content",
   "article-body",
   "article-body__content",
   "article__body",
   "articleBody",
   "articleText",
   "articletext",
   "article-main",
   "articlePage",
   "article-page",
   "articleDetail",
   "article-detail",
   "articleSection",
   "o-article__body",
   "c-article",
   "c-article__content",
   "l-article-content",
   "story",
   "story-body",
   "story-body__inner",
   "story__content",
   "story-content",
   "storyContent",
   "storyText",
   "post",
   "post-article",
   "post__content",
   "post-content",
   "post-content__body",
   "post-body",
   "post-body__content",
   "post-text",
   "entry",
   "entry-content",
   "entry__content",
   "entry-content__inner",
   "blog-post",
   "blog__content",
   "body-content",
   "bodyText",
   "body__content",
   "rich-text",
   "rich-text__content",
   "prose",
   "markdown-body",
   "read__content",
   "news-article",
   "news-article__content",
   "news-article-body",
   "mw-parser-output"]

/-- The `MAIN_SELECTORS` priority list from `extract_main_content_fragment`,
with each CSS selector string translated into its `CSelector` form. -/
def MAIN_SELECTORS : List CSelector :=
  mainSelectorsHead ++ mainSelectorClassNames.map CSelector.clsSel

/-- The literal alternatives of `POSITIVE_CLASS_REGEX`. -/
def positiveTerms : List String :=
  ["article", "body", "content", "entry", "hentry", "h-entry", "main",
   "page", "pagination", "post", "text", "blog", "story", "paragraph"]

/-- The plain-substring alternatives of `NEGATIVE_CLASS_REGEX` (the four
anchored `hid` alternatives are handled separately). -/
def negativeTerms : List String :=
  ["hidden", "banner", "breadcrumb", "combx", "comment", "com-", "contact",
   "foot", "footer", "footnote", "masthead", "media", "meta", "outbrain",
   "promo", "related", "scroll", "share", "shoutbox", "sidebar",
   "skyscraper", "sponsor", "shopping", "tags", "tool", "widget",
   "subscribe", "nav", "author", "byline"]

/-- `POSITIVE_CLASS_REGEX.is_match`: case-insensitive alternation of literal
terms. -/
def posRegexMatch (s : String) : Bool :=
  let l := asciiLower s
  positiveTerms.any (fun t => strContains l t)

/-- `NEGATIVE_CLASS_REGEX.is_match`: case-insensitive alternation of literal
terms plus the four anchored `hid` alternatives
(`^hid$`, ` hid$`, ` hid `, `^hid `). -/
def negRegexMatch (s : String) : Bool :=
  let l := asciiLower s
  negativeTerms.any (fun t => strContains l t)
    || l == "hid" || endsWithStr l " hid" || strContains l " hid "
    || startsWithStr l "hid "

/-- `MIN_DYNAMIC_TEXT_CHARS` from `readability_extract.rs`. -/
def MIN_DYNAMIC_TEXT_CHARS : Nat := 180

/-- The class+id token string built at the top of the loop of
`select_by_positive_regex`. -/
def attrTokens (e : HtmlNode) : String :=
  let base := (elemAttr e "class").getD ""
  match elemAttr e "id" with
  | some idv => if base ≠ "" then base ++ " " ++ idv else base ++ idv
  | none => base

/-- The elements scanned by `select_by_positive_regex`: those matched by the
selector `[class],[id]`, in document order. -/
def classIdElements (doc : HtmlNode) : List HtmlNode :=
  (elementsOf doc).filter
    (fun e => (elemAttr e "class").isSome || (elemAttr e "id").isSome)

/-- The trimmed visible-text character count of a candidate element
(`text.trim().chars().count()`). -/
def trimmedTextLen (e : HtmlNode) : Nat :=
  (rustTrim (collectText e)).length

/-- The candidate-tracking loop of `select_by_positive_regex`, threading the
current best `(serialized html, text length)` pair. -/
def stage2Loop : List HtmlNode → Option (String × Nat) → Option (String × Nat)
  | [], best => best
  | e :: rest, best =>
    if attrTokens e == "" then stage2Loop rest best
    else if negRegexMatch (attrTokens e) && !posRegexMatch (attrTokens e) then
      stage2Loop rest best
    else if posRegexMatch (attrTokens e) then
      if trimmedTextLen e < MIN_DYNAMIC_TEXT_CHARS then stage2Loop rest best
      else
        match best with
        | some b =>
          if trimmedTextLen e > b.2 then
            stage2Loop rest (some (serializeNode e, trimmedTextLen e))
          else stage2Loop rest best
        | none => stage2Loop rest (some (serializeNode e, trimmedTextLen e))
    else stage2Loop rest best

/-- `select_by_positive_regex` from `readability_extract.rs`. -/
def select_by_positive_regex (doc : HtmlNode) : Option String :=
  (stage2Loop (classIdElements doc) none).map (·.1)

/-- `SelectedHtml` from `readability_extract.rs`. -/
inductive SelectedHtml where
  | Main (s : String)
  | Body (s : String)
deriving DecidableEq, Repr

/-- The Stage-1 loop over `MAIN_SELECTORS`: take the first document element
matching each selector in turn; a match with whitespace-only text sends the
loop on to the next selector. -/
def curatedLoop : List CSelector → HtmlNode → Option String
  | [], _ => none
  | sel :: rest, doc =>
    match firstMatch doc sel with
    | some el =>
      if rustTrim (collectText el) == "" then curatedLoop rest doc
      else some (serializeNode el)
    | none => curatedLoop rest doc

/-- The Stage-3 `<body>` fallback of `extract_main_content_fragment`. -/
def bodyFallback (doc : HtmlNode) : Option SelectedHtml :=
  match firstMatch doc (.tagSel "body") with
  | some body =>
    if rustTrim (collectText body) == "" then none
    else some (.Body (serializeNode body))
  | none => none

/-- `extract_main_content_fragment` from `readability_extract.rs`.  The
`scraper` parse of `html` is supplied as `doc`; the raw string is still
needed for the leading whitespace-only test. -/
def extract_main_content_fragment (html : String) (doc : HtmlNode) :
    Option SelectedHtml :=
  if rustTrim html == "" then none
  else
    match curatedLoop MAIN_SELECTORS doc with
    | some f => some (.Main f)
    | none =>
      match select_by_positive_regex doc with
      | some f => some (.Main f)
      | none => bodyFallback doc

/-! ## Extraction orchestrator (`fetch_url_content` in
`readability_extract.rs`)

The network fetch itself is outside the model; the function below covers
everything `fetch_url_content` does after receiving the body bytes and the
`Content-Type` header.  External crates (`pdf-extract`, `encoding_rs`,
`chardetng`, `scraper`'s parser and `html2text`) are supplied through a
`FetchEnv` record of function parameters. -/

/-- `ExtractionKind` from `readability_extract.rs`. -/
inductive ExtractionKind where
  | HtmlMain
  | HtmlFull
  | Pdf
  | PlainText
deriving DecidableEq, Repr

/-- `ExtractedContent` from `readability_extract.rs`. -/
structure ExtractedContent where
  text : String
  content_type : Option String
  kind : ExtractionKind
  main_fragment_used : Bool
deriving DecidableEq, Repr

/-- The `{code, message, ...}` error payloads built by
`build_error_payload`; the free-form `details` JSON is not modelled. -/
structure ErrPayload where
  code : String
  message : String
deriving DecidableEq, Repr

/-- External collaborators of `fetch_url_content`. -/
structure FetchEnv where
  pdfExtract : List Nat → Except String String
  enc : EncodingApi
  parseHtml : String → HtmlNode
  html2text : String → Except String String

/-- `PDF_LIMIT_BYTES` from `fetch_url_content`: 500 MiB. -/
def PDF_LIMIT_BYTES : Nat := 500 * 1024 * 1024

/-- The `is_html_ct` test of `fetch_url_content` (lowercase the header, take
the token before `;`, trim, compare). -/
def is_html_content_type (ct : Option String) : Bool :=
  match ct with
  | some s =>
    let m := rustTrim ((splitChar ';' (asciiLower s)).headD "")
    m == "text/html" || m == "application/xhtml+xml"
  | none => false

/-- The `(source_html, main_fragment_used, extraction_kind)` choice of
`fetch_url_content` step 4a, as a function of the selector result. -/
def choose_html_source (decoded : String) :
    Option SelectedHtml → String × Bool × ExtractionKind
  | some (.Main fragment) => (fragment, true, .HtmlMain)
  | some (.Body body_html) => (body_html, false, .HtmlFull)
  | none => (decoded, false, .HtmlFull)

/-- The post-fetch pipeline of `fetch_url_content`: PDF fast path with the
500 MiB gate, binary guard, charset decode, and the HTML/plain-text split. -/
def fetch_url_content (env : FetchEnv) (body_bytes : List Nat)
    (content_type_header : Option String) (extract_main : Bool) :
    Except ErrPayload ExtractedContent :=
  let head := body_bytes.take 512
  let size := body_bytes.length
  if is_pdf content_type_header head then
    if size > PDF_LIMIT_BYTES then
      .error ⟨"ERR_FETCH_PDF_PARSE", "PDF exceeds the allowed size limit"⟩
    else
      match env.pdfExtract body_bytes with
      | .ok text => .ok ⟨text, content_type_header, .Pdf, false⟩
      | .error err =>
        let errStr := asciiLower err
        if strContains errStr "encrypt" || strContains errStr "password" then
          .error ⟨"ERR_FETCH_PDF_ENCRYPTED", "Encrypted PDF is not supported"⟩
        else
          .error ⟨"ERR_FETCH_PDF_PARSE", "Failed to parse PDF content"⟩
  else
    match detect_binary content_type_header head with
    | .Binary _ =>
      .error ⟨"ERR_FETCH_UNSUPPORTED_BINARY",
        "Fetch cannot be performed for this type of content"⟩
    | .Text =>
      match decode_to_utf8 env.enc body_bytes content_type_header with
      | .error _ =>
        .error ⟨"ERR_FETCH_UNKNOWN", "Failed to decode textual content to UTF-8"⟩
      | .ok decoded =>
        if is_html_content_type content_type_header then
          let sel :=
            if extract_main then
              choose_html_source decoded
                (extract_main_content_fragment decoded (env.parseHtml decoded))
            else (decoded, false, ExtractionKind.HtmlFull)
          match env.html2text sel.1 with
          | .ok text => .ok ⟨text, content_type_header, sel.2.2, sel.2.1⟩
          | .error _ =>
            .error ⟨"ERR_FETCH_UNKNOWN", "Failed to convert HTML content to text"⟩
        else
          .ok ⟨decoded, content_type_header, .PlainText, false⟩

/-! ## HTML→Markdown transducer (`src/tools/url_fetch_tool.rs`)

The tree walk (`MarkdownWriter::visit_node`) dispatches an ordered list of
stateful tag handlers.  Only `TableHandler` carries state of its own; its
fields are folded into the walker state so that handlers become pure
state-transformers. -/

/-- `HtmlElement` from `url_fetch_tool.rs`: tag name plus attribute list. -/
structure HtmlElement where
  tag : String
  attrs : List (String × String)

/-- `HtmlElement::attr`. -/
def HtmlElement.attr (el : HtmlElement) (name : String) : Option String :=
  (el.attrs.find? (fun a => a.1 == name)).map (·.2)

/-- `HtmlElement::classes`: split the `class` attribute on single spaces and
trim each token. -/
def HtmlElement.classes (el : HtmlElement) : List String :=
  match (el.attrs.find? (fun a => a.1 == "class")).map (·.2) with
  | some v => (splitChar ' ' v).map rustTrim
  | none => []

/-- `HtmlElement::has_any_classes`. -/
def HtmlElement.hasAnyClasses (el : HtmlElement) (cs : List String) : Bool :=
  el.attrs.any (fun a =>
    a.1 == "class" && (splitChar ' ' a.2).any (fun cl => cs.contains (rustTrim cl)))

/-- `HtmlElement::has_class`. -/
def HtmlElement.hasClass (el : HtmlElement) (c : String) : Bool :=
  el.hasAnyClasses [c]

/-- The `inline_elements` tag set of `url_fetch_tool.rs`. -/
def inlineElements : List String :=
  ["a", "abbr", "acronym", "audio", "b", "bdi", "bdo", "big", "br",
   "button", "canvas", "cite", "code", "data", "datalist", "del", "dfn",
   "em", "embed", "i", "iframe", "img", "input", "ins", "kbd", "label",
   "map", "mark", "meter", "noscript", "object", "output", "picture",
   "progress", "q", "ruby", "s", "samp", "script", "select", "slot",
   "small", "span", "strong", "sub", "sup", "svg", "template", "textarea",
   "time", "tt", "u", "var", "video", "wbr"]

/-- `HtmlElement::is_inline`. -/
def HtmlElement.isInline (el : HtmlElement) : Bool :=
  inlineElements.contains el.tag

/-- `StartTagOutcome` from `url_fetch_tool.rs`. -/
inductive StartTagOutcome where
  | Continue
  | Skip

/-- `HandlerOutcome` from `url_fetch_tool.rs`. -/
inductive HandlerOutcome where
  | Handled
  | NoOp

/-- The walker state: `MarkdownWriter`'s element stack (head = most recently
pushed, i.e. the back of the `VecDeque`) and output buffer, together with
`TableHandler`'s private counters. -/
structure MarkdownWriter where
  current_element_stack : List HtmlElement
  markdown : String
  current_table_columns : Nat
  is_first_th : Bool
  is_first_td : Bool

/-- `MarkdownWriter::new`. -/
def newWriter : MarkdownWriter := ⟨[], "", 0, true, true⟩

/-- `MarkdownWriter::push_str`. -/
def pushStr (w : MarkdownWriter) (s : String) : MarkdownWriter :=
  { w with markdown := w.markdown ++ s }

/-- `MarkdownWriter::is_inside`. -/
def is_inside (w : MarkdownWriter) (tag : String) : Bool :=
  w.current_element_stack.any (fun el => el.tag == tag)

/-- A tag handler: `should_handle` plus the three callbacks of the
`HandleTag` trait, as pure state transformers. -/
structure TagHandler where
  should_handle : String → Bool
  on_start : HtmlElement → MarkdownWriter → MarkdownWriter × StartTagOutcome
  on_end : HtmlElement → MarkdownWriter → MarkdownWriter
  on_text : String → MarkdownWriter → MarkdownWriter × HandlerOutcome

/-- Default (no-op) `handle_tag_start`. -/
def defaultStart (_ : HtmlElement) (w : MarkdownWriter) :
    MarkdownWriter × StartTagOutcome := (w, .Continue)

/-- Default (no-op) `handle_tag_end`. -/
def defaultEnd (_ : HtmlElement) (w : MarkdownWriter) : MarkdownWriter := w

/-- Default (no-op) `handle_text`. -/
def defaultText (_ : String) (w : MarkdownWriter) :
    MarkdownWriter × HandlerOutcome := (w, .NoOp)

/-- The ad/tracking class token list of `WebpageChromeRemover`. -/
def chromeClassList : List String :=
  ["ad", "ads", "advertisement", "banner", "popup", "modal", "cookie",
   "newsletter", "sidebar", "widget", "promo", "sponsored", "affiliate",
   "tracking"]

/-- The ad-related-`id` test at the end of
`WebpageChromeRemover::handle_tag_start`. -/
def chromeIdSkip (tag : HtmlElement) : Bool :=
  match tag.attr "id" with
  | some id =>
    let idLower := asciiLower id
    strContains idLower "ad" || strContains idLower "banner"
      || strContains idLower "popup" || strContains idLower "cookie"
      || strContains idLower "newsletter" || strContains idLower "sidebar"
  | none => false

/-- `WebpageChromeRemover::handle_tag_start`. -/
def chromeStart (tag : HtmlElement) (w : MarkdownWriter) :
    MarkdownWriter × StartTagOutcome :=
  if tag.tag == "head" || tag.tag == "script" || tag.tag == "style"
      || tag.tag == "nav" || tag.tag == "footer" || tag.tag == "aside" then
    (w, .Skip)
  else if tag.hasAnyClasses chromeClassList then
    (w, .Skip)
  else if tag.classes.any (fun c =>
      strContains c "ad" || strContains c "banner" || strContains c "popup"
        || strContains c "promo") then
    (w, .Skip)
  else if tag.hasClass "advertisement" || tag.hasClass "sponsored-content" then
    (w, .Skip)
  else if chromeIdSkip tag then
    (w, .Skip)
  else (w, .Continue)

/-- `WebpageChromeRemover` (its `should_handle` accepts every tag). -/
def webpageChromeRemover : TagHandler :=
  ⟨fun _ => true, chromeStart, defaultEnd, defaultText⟩

/-- The separating-space test of `ParagraphHandler::handle_tag_start`: the
innermost open element (`current_element_stack().iter().last()`, the back of
the deque) is not inline and the buffer does not already end in a space or
newline. -/
def paragraphNeedsSpace (w : MarkdownWriter) : Bool :=
  match w.current_element_stack.head? with
  | some parent =>
    !(parent.isInline || endsWithStr w.markdown " "
      || endsWithStr w.markdown "\n")
  | none => false

/-- `ParagraphHandler::handle_tag_start`. -/
def paragraphStart (tag : HtmlElement) (w : MarkdownWriter) :
    MarkdownWriter × StartTagOutcome :=
  let w :=
    if tag.isInline && is_inside w "p" then
      if paragraphNeedsSpace w then pushStr w " " else w
    else w
  let w := if tag.tag == "p" then pushStr w "\n\n" else w
  (w, .Continue)

def paragraphHandler : TagHandler :=
  ⟨fun _ => true, paragraphStart, defaultEnd, defaultText⟩

/-- `HeadingHandler::handle_tag_start`. -/
def headingStart (tag : HtmlElement) (w : MarkdownWriter) :
    MarkdownWriter × StartTagOutcome :=
  let w :=
    if tag.tag == "h1" then pushStr w "\n\n# "
    else if tag.tag == "h2" then pushStr w "\n\n## "
    else if tag.tag == "h3" then pushStr w "\n\n### "
    else if tag.tag == "h4" then pushStr w "\n\n#### "
    else if tag.tag == "h5" then pushStr w "\n\n##### "
    else if tag.tag == "h6" then pushStr w "\n\n###### "
    else w
  (w, .Continue)

/-- `HeadingHandler::handle_tag_end`. -/
def headingEnd (tag : HtmlElement) (w : MarkdownWriter) : MarkdownWriter :=
  if tag.tag == "h1" || tag.tag == "h2" || tag.tag == "h3"
      || tag.tag == "h4" || tag.tag == "h5" || tag.tag == "h6" then
    pushStr w "\n\n"
  else w

def headingShould (tag : String) : Bool :=
  tag == "h1" || tag == "h2" || tag == "h3" || tag == "h4" || tag == "h5"
    || tag == "h6"

def headingHandler : TagHandler :=
  ⟨headingShould, headingStart, headingEnd, defaultText⟩

/-- `ListHandler::handle_tag_start`. -/
def listStart (tag : HtmlElement) (w : MarkdownWriter) :
    MarkdownWriter × StartTagOutcome :=
  let w :=
    if tag.tag == "ul" || tag.tag == "ol" then pushStr w "\n"
    else if tag.tag == "li" then pushStr w "- "
    else w
  (w, .Continue)

/-- `ListHandler::handle_tag_end`. -/
def listEnd (tag : HtmlElement) (w : MarkdownWriter) : MarkdownWriter :=
  if tag.tag == "ul" || tag.tag == "ol" then pushStr w "\n"
  else if tag.tag == "li" then pushStr w "\n"
  else w

def listHandler : TagHandler :=
  ⟨fun tag => tag == "ul" || tag == "ol" || tag == "li",
   listStart, listEnd, defaultText⟩

/-- `TableHandler::handle_tag_start`. -/
def tableStart (tag : HtmlElement) (w : MarkdownWriter) :
    MarkdownWriter × StartTagOutcome :=
  let w :=
    if tag.tag == "thead" then pushStr w "\n\n"
    else if tag.tag == "tr" then pushStr w "\n"
    else if tag.tag == "th" then
      let w := { w with current_table_columns := w.current_table_columns + 1 }
      let w :=
        if w.is_first_th then { w with is_first_th := false }
        else pushStr w " "
      pushStr w "| "
    else if tag.tag == "td" then
      let w :=
        if w.is_first_td then { w with is_first_td := false }
        else pushStr w " "
      pushStr w "| "
    else w
  (w, .Continue)

/-- The separator row emitted on leaving `<thead>`: `| ---` per counted
column, space-separated. -/
def sepRow : Nat → String
  | 0 => ""
  | 1 => "| ---"
  | n + 2 => sepRow (n + 1) ++ " " ++ "| ---"

/-- `TableHandler::handle_tag_end`. -/
def tableEnd (tag : HtmlElement) (w : MarkdownWriter) : MarkdownWriter :=
  if tag.tag == "thead" then
    let w := pushStr w "\n"
    let w := pushStr w (sepRow w.current_table_columns)
    let w := pushStr w " |"
    { w with is_first_th := true }
  else if tag.tag == "tr" then
    let w := pushStr w " |"
    { w with is_first_td := true }
  else if tag.tag == "table" then
    { w with current_table_columns := 0 }
  else w

def tableShould (tag : String) : Bool :=
  tag == "table" || tag == "thead" || tag == "tbody" || tag == "tr"
    || tag == "th" || tag == "td"

def tableHandler : TagHandler :=
  ⟨tableShould, tableStart, tableEnd, defaultText⟩

/-- `StyledTextHandler` entry/exit markers. -/
def styledMark (tag : HtmlElement) (w : MarkdownWriter) : MarkdownWriter :=
  if tag.tag == "strong" then pushStr w "**"
  else if tag.tag == "em" then pushStr w "_"
  else w

def styledTextHandler : TagHandler :=
  ⟨fun tag => tag == "strong" || tag == "em",
   fun tag w => (styledMark tag w, .Continue), styledMark, defaultText⟩

/-- `LinkHandler::handle_tag_start`. -/
def linkStart (tag : HtmlElement) (w : MarkdownWriter) :
    MarkdownWriter × StartTagOutcome :=
  if (tag.attr "href").isSome then (pushStr w "[", .Continue)
  else (w, .Continue)

/-- `LinkHandler::handle_tag_end`. -/
def linkEnd (tag : HtmlElement) (w : MarkdownWriter) : MarkdownWriter :=
  match tag.attr "href" with
  | some href => pushStr w ("](" ++ href ++ ")")
  | none => w

def linkHandler : TagHandler :=
  ⟨fun tag => tag == "a", linkStart, linkEnd, defaultText⟩

/-- `ImageHandler::handle_tag_start` (always skips the subtree). -/
def imageStart (tag : HtmlElement) (w : MarkdownWriter) :
    MarkdownWriter × StartTagOutcome :=
  match tag.attr "src" with
  | some src =>
    let alt := (tag.attr "alt").getD "image"
    (pushStr w ("![" ++ alt ++ "](" ++ src ++ ")"), .Skip)
  | none => (w, .Skip)

def imageHandler : TagHandler :=
  ⟨fun tag => tag == "img", imageStart, defaultEnd, defaultText⟩

/-- `CodeHandler::handle_tag_start`. -/
def codeStart (tag : HtmlElement) (w : MarkdownWriter) :
    MarkdownWriter × StartTagOutcome :=
  let w :=
    if tag.tag == "code" then
      if !(is_inside w "pre") then pushStr w "`" else w
    else if tag.tag == "pre" then pushStr w "\n\n```\n"
    else w
  (w, .Continue)

/-- `CodeHandler::handle_tag_end`. -/
def codeEnd (tag : HtmlElement) (w : MarkdownWriter) : MarkdownWriter :=
  if tag.tag == "code" then
    if !(is_inside w "pre") then pushStr w "`" else w
  else if tag.tag == "pre" then pushStr w "\n```\n"
  else w

/-- `CodeHandler::handle_text`: verbatim inside `<pre>`. -/
def codeText (text : String) (w : MarkdownWriter) :
    MarkdownWriter × HandlerOutcome :=
  if is_inside w "pre" then (pushStr w text, .Handled)
  else (w, .NoOp)

def codeHandler : TagHandler :=
  ⟨fun tag => tag == "pre" || tag == "code", codeStart, codeEnd, codeText⟩

/-- The handler registration order used by `build_message` for HTML pages. -/
def allHandlers : List TagHandler :=
  [webpageChromeRemover, paragraphHandler, headingHandler, listHandler,
   tableHandler, styledTextHandler, linkHandler, imageHandler, codeHandler]

/-- `MarkdownWriter::start_tag`: run each handler's `handle_tag_start` in
registration order, stopping at the first `Skip`. -/
def runStartHandlers : List TagHandler → HtmlElement → MarkdownWriter →
    MarkdownWriter × StartTagOutcome
  | [], _, w => (w, .Continue)
  | h :: hs, el, w =>
    if h.should_handle el.tag then
      match h.on_start el w with
      | (w1, .Skip) => (w1, .Skip)
      | (w1, .Continue) => runStartHandlers hs el w1
    else runStartHandlers hs el w

/-- `MarkdownWriter::end_tag`: run each handler's `handle_tag_end` in
registration order (not reversed). -/
def runEndHandlers : List TagHandler → HtmlElement → MarkdownWriter →
    MarkdownWriter
  | [], _, w => w
  | h :: hs, el, w =>
    if h.should_handle el.tag then runEndHandlers hs el (h.on_end el w)
    else runEndHandlers hs el w

/-- The handler loop of `MarkdownWriter::visit_text`, stopping at the first
`Handled`. -/
def runTextHandlers : List TagHandler → String → MarkdownWriter →
    MarkdownWriter × HandlerOutcome
  | [], _, w => (w, .NoOp)
  | h :: hs, t, w =>
    match h.on_text t w with
    | (w1, .Handled) => (w1, .Handled)
    | (w1, .NoOp) => runTextHandlers hs t w1

/-- Is the character one of `\n`, `\r`, `\t` (the default text-path trim
predicate)? -/
def isNRT (c : Char) : Bool := c == '\n' || c == '\r' || c == '\t'

/-- The default text handling of `visit_text`: trim leading/trailing
newline/CR/tab characters, then turn every remaining newline into a space. -/
def defaultTextClean (t : String) : String :=
  String.mk
    ((((t.toList.dropWhile isNRT).reverse.dropWhile isNRT).reverse).map
      (fun c => if c == '\n' then ' ' else c))

/-- `MarkdownWriter::visit_text`. -/
def visit_text (w : MarkdownWriter) (t : String) : MarkdownWriter :=
  match runTextHandlers allHandlers t w with
  | (w1, .Handled) => w1
  | (w1, .NoOp) => pushStr w1 (defaultTextClean t)

mutual

/-- `MarkdownWriter::visit_node`: dispatch on the node kind, push the element
when no handler skipped it, visit the children, pop, then run the end
handlers. -/
def visit_node (w : MarkdownWriter) : HtmlNode → MarkdownWriter
  | .textNode t => visit_text w t
  | .container cs => visit_children w cs
  | .element tag attrs cs =>
    if tag == "" then visit_children w cs
    else
      let el : HtmlElement := ⟨tag, attrs⟩
      match runStartHandlers allHandlers el w with
      | (w1, .Skip) => w1
      | (w1, .Continue) =>
        let w2 := visit_children
          { w1 with current_element_stack := el :: w1.current_element_stack } cs
        let w3 := { w2 with current_element_stack := w2.current_element_stack.tail }
        runEndHandlers allHandlers el w3

def visit_children (w : MarkdownWriter) : List HtmlNode → MarkdownWriter
  | [] => w
  | n :: ns => visit_children (visit_node w n) ns

end

/-- Characters matched by the `\s` class of the Rust `regex` crate (the
ASCII part; the markdown buffers under study contain no exotic Unicode
whitespace). -/
def regexWs (c : Char) : Bool :=
  c == ' ' || c == '\t' || c == '\n' || c == '\r' || c == '\x0b' || c == '\x0c'

/-- One left-to-right `replace_all` pass of the `\n{3}` regex: each
non-overlapping occurrence of exactly three consecutive newlines becomes
two. -/
def collapseTripleNl : List Char → List Char
  | '\n' :: '\n' :: '\n' :: rest => '\n' :: '\n' :: collapseTripleNl rest
  | c :: rest => c :: collapseTripleNl rest
  | [] => []

/-- `MarkdownWriter::prettify_markdown`.  Note that `empty_line_regex` is
`^\s*$` *without* multi-line mode, so its `replace_all` clears the buffer
only when the whole buffer is whitespace; and `more_than_three_newlines_regex`
is `\n{3}`, replaced by two newlines per match. -/
def prettify_markdown (markdown : String) : String :=
  let md1 := if markdown.toList.all regexWs then "" else markdown
  let md2 := String.mk (collapseTripleNl md1.toList)
  rustTrim md2

/-- `convert_html_to_markdown` from `url_fetch_tool.rs`, applied to a parsed
document with the handler list used by `build_message`. -/
def convert_html_to_markdown (doc : HtmlNode) : String :=
  prettify_markdown (visit_node newWriter doc).markdown

/-! ## Concrete documents used by the claims -/

/-- The `scraper` parse of `<html><body><p>hi</p></body></html>` (the parser
inserts the empty `<head>`). -/
def sampleBodyDoc : HtmlNode :=
  .container [.element "html" [] [.element "head" [] [],
    .element "body" [] [.element "p" [] [.textNode "hi"]]]]

def sampleBodyHtml : String := "<html><body><p>hi</p></body></html>"

/-- The `scraper` parse of `<html><body></body></html>`: a document with no
text content at all. -/
def emptyBodyDoc : HtmlNode :=
  .container [.element "html" [] [.element "head" [] [],
    .element "body" [] []]]

def emptyBodyHtml : String := "<html><body></body></html>"

/-- The parse of a document whose only class-bearing element positively
matches the heuristic pattern but carries just five characters of text. -/
def shortPositiveDoc : HtmlNode :=
  .container [.element "html" [] [.element "head" [] [],
    .element "body" [] [.element "div" [("class", "content")]
      [.textNode "short"]]]]

def shortPositiveHtml : String :=
  "<html><body><div class=\"content\">short</div></body></html>"

/-! ## Claims -/

/-- Claim C1, counterexample.  On `<html><body><p>hi</p></body></html>` the
selector yields the `BodyFragment`, and the orchestrator feeds the *body
fragment's* serialized HTML — not the original full decoded document — to the
HTML-to-text conversion. -/
theorem claim1_counterexample :
    extract_main_content_fragment sampleBodyHtml sampleBodyDoc
      = some (.Body "<body><p>hi</p></body>") ∧
    (choose_html_source sampleBodyHtml
      (extract_main_content_fragment sampleBodyHtml sampleBodyDoc)).1
      = "<body><p>hi</p></body>" ∧
    "<body><p>hi</p></body>" ≠ sampleBodyHtml :=
  ⟨by decide, by decide, by decide⟩

/-- Claim C1 (amended): when selection yields a `BodyFragment`, the
orchestrator runs the conversion on the body fragment's HTML; only when
selection yields `None` does it run on the original full decoded document.
In both cases `kind = HtmlFull` and `main_fragment_used = false`. -/
theorem claim1_theorem (decoded b : String) :
    choose_html_source decoded (some (.Body b))
        = (b, false, ExtractionKind.HtmlFull) ∧
      choose_html_source decoded none
        = (decoded, false, ExtractionKind.HtmlFull) :=
  ⟨rfl, rfl⟩

/-- Claim C3: whenever the declared content type's parameter-stripped
lowercased main MIME token starts with `text/`, `detect_binary` returns the
`Text` verdict for every head byte sequence — magic-byte sniffing is never
consulted. -/
theorem claim3_theorem (ct : String) (head : List Nat)
    (h : startsWithStr (mimeMainOf ct) "text/" = true) :
    detect_binary (some ct) head = .Text := by
  simp [detect_binary, isTextualMime, h]

/-- Witness for C3: `text/plain; charset=utf-8` is trusted as text even when
the body starts with the PNG magic bytes. -/
theorem claim3_witness :
    startsWithStr (mimeMainOf "text/plain; charset=utf-8") "text/" = true ∧
    detect_binary (some "text/plain; charset=utf-8") PNG_MAGIC = .Text :=
  ⟨by decide,
   claim3_theorem "text/plain; charset=utf-8" PNG_MAGIC (by decide)⟩

/-- Claim C4, counterexample: `<html><body></body></html>` is not
whitespace-only, yet the selector returns `None` (its parsed document has no
non-whitespace text anywhere). -/
theorem claim4_counterexample :
    rustTrim emptyBodyHtml ≠ "" ∧
    extract_main_content_fragment emptyBodyHtml emptyBodyDoc = none :=
  ⟨by decide, by decide⟩

/-- Claim C4 (amended): the selector can also return `None` for non-blank
input whose document has no visible text; but whenever the input is not
whitespace-only and the parsed document's `body` element has non-whitespace
text, selection returns some fragment. -/
theorem claim4_theorem (html : String) (doc : HtmlNode)
    (h1 : rustTrim html ≠ "")
    (h2 : ∃ b, firstMatch doc (CSelector.tagSel "body") = some b ∧
      rustTrim (collectText b) ≠ "") :
    (extract_main_content_fragment html doc).isSome = true := by
  obtain ⟨b, hb, htxt⟩ := h2
  unfold extract_main_content_fragment
  have hw : (rustTrim html == "") = false := by
    simp [h1]
  rw [hw]
  simp only [Bool.false_eq_true, if_false]
  cases hc : curatedLoop MAIN_SELECTORS doc with
  | some f => simp
  | none =>
    cases hs : select_by_positive_regex doc with
    | some f => simp
    | none =>
      unfold bodyFallback
      rw [hb]
      have ht : (rustTrim (collectText b) == "") = false := by
        simp [htxt]
      simp [ht]

/-- Witness for C4 (amended), at `<html><body><p>hi</p></body></html>`. -/
theorem claim4_witness :
    (extract_main_content_fragment sampleBodyHtml sampleBodyDoc).isSome
      = true :=
  claim4_theorem sampleBodyHtml sampleBodyDoc (by decide)
    ⟨.element "body" [] [.element "p" [] [.textNode "hi"]], rfl, by decide⟩

/-- Claim C8: the prettify pass is *not* idempotent as implemented.  The
regex `\n{3}` rewrites each non-overlapping triple of newlines to two, so a
run of four newlines shrinks to three on the first pass and to two on the
second: `prettify (prettify "a\n\n\n\nb") ≠ prettify "a\n\n\n\nb"`. -/
theorem claim8_theorem :
    prettify_markdown "a\n\n\n\nb" = "a\n\n\nb" ∧
    prettify_markdown (prettify_markdown "a\n\n\n\nb")
      ≠ prettify_markdown "a\n\n\n\nb" :=
  ⟨by decide, by decide⟩

/-- Helper: a successful statistical-detection decode pins down the guessed
encoding's decode result. -/
theorem decodeByDetection_ok (api : EncodingApi) (bytes : List Nat)
    (s : String) (h : decodeByDetection api bytes = .ok s) :
    api.decode (api.guess bytes) bytes = (s, false) := by
  unfold decodeByDetection at h
  rcases hd : api.decode (api.guess bytes) bytes with ⟨t, f⟩
  rw [hd] at h
  cases f with
  | true => simp at h
  | false => simp at h; rw [h]

/-- Claim C2: `decode_to_utf8` returns a string only when the stage it
committed to (BOM-implied encoding, declared charset, or detected encoding)
decoded the bytes with the `had_errors` flag clear; an error in the
committed stage makes the whole decode fail instead of falling back. -/
theorem claim2_theorem (api : EncodingApi) (bytes : List Nat)
    (ct : Option String) (s : String)
    (h : decode_to_utf8 api bytes ct = .ok s) :
    (∃ e, api.forBom bytes = some e ∧
      api.decode e.1 (bytes.drop e.2) = (s, false)) ∨
    (api.forBom bytes = none ∧ ∃ label enc,
      extract_charset_label ct = some label ∧
      api.forLabelNoRepl label = some enc ∧
      api.decode enc bytes = (s, false)) ∨
    (api.forBom bytes = none ∧
      (∀ label, extract_charset_label ct = some label →
        api.forLabelNoRepl label = none) ∧
      api.decode (api.guess bytes) bytes = (s, false)) := by
  unfold decode_to_utf8 at h
  cases hbom : api.forBom bytes with
  | some e =>
    rw [hbom] at h
    dsimp only at h
    left
    refine ⟨e, rfl, ?_⟩
    rcases hd : api.decode e.1 (bytes.drop e.2) with ⟨t, f⟩
    rw [hd] at h
    cases f with
    | true => simp at h
    | false => simp at h; rw [h]
  | none =>
    rw [hbom] at h
    dsimp only at h
    cases hlab : extract_charset_label ct with
    | some label =>
      rw [hlab] at h
      dsimp only at h
      cases henc : api.forLabelNoRepl label with
      | some enc =>
        rw [henc] at h
        dsimp only at h
        right; left
        refine ⟨rfl, label, enc, rfl, henc, ?_⟩
        rcases hd : api.decode enc bytes with ⟨t, f⟩
        rw [hd] at h
        cases f with
        | true => simp at h
        | false => simp at h; rw [h]
      | none =>
        rw [henc] at h
        dsimp only at h
        right; right
        refine ⟨rfl, ?_, decodeByDetection_ok api bytes s h⟩
        intro l hl
        cases hl
        exact henc
    | none =>
      rw [hlab] at h
      dsimp only at h
      right; right
      refine ⟨rfl, ?_, decodeByDetection_ok api bytes s h⟩
      intro l hl
      simp at hl

/-- A concrete encoding environment for the C2 witness: no BOM, the label
`utf-8` is known, decoding is clean. -/
def sampleApi : EncodingApi :=
  ⟨fun _ => none,
   fun l => if l == "utf-8" then some "UTF-8" else none,
   fun _ _ => ("abc", false),
   fun _ => "windows-1252"⟩

/-- Witness for C2: a clean declared-charset decode, with the committed
stage (stage 2) identified. -/
theorem claim2_witness :
    decode_to_utf8 sampleApi [97, 98, 99] (some "text/html; charset=utf-8")
        = .ok "abc" ∧
      ((∃ e, sampleApi.forBom [97, 98, 99] = some e ∧
        sampleApi.decode e.1 ([97, 98, 99].drop e.2) = ("abc", false)) ∨
      (sampleApi.forBom [97, 98, 99] = none ∧ ∃ label enc,
        extract_charset_label (some "text/html; charset=utf-8") = some label ∧
        sampleApi.forLabelNoRepl label = some enc ∧
        sampleApi.decode enc [97, 98, 99] = ("abc", false)) ∨
      (sampleApi.forBom [97, 98, 99] = none ∧
        (∀ label,
          extract_charset_label (some "text/html; charset=utf-8") = some label →
          sampleApi.forLabelNoRepl label = none) ∧
        sampleApi.decode (sampleApi.guess [97, 98, 99]) [97, 98, 99]
          = ("abc", false))) :=
  ⟨rfl,
   claim2_theorem sampleApi [97, 98, 99] (some "text/html; charset=utf-8")
     "abc" rfl⟩

/-- Claim C5 (amended): a buffer recognized as PDF whose size exceeds the
500 MiB ceiling fails with the dedicated "PDF exceeds the allowed size
limit" payload before the PDF extractor ever runs — the result is the same
for every possible extractor, so the extractor is never invoked.  The
payload's machine-readable code, however, is `ERR_FETCH_PDF_PARSE`, the same
code the generic parse failure uses. -/
theorem claim5_theorem (env : FetchEnv) (bytes : List Nat)
    (ct : Option String) (em : Bool)
    (h1 : is_pdf ct (bytes.take 512) = true)
    (h2 : bytes.length > PDF_LIMIT_BYTES) :
    fetch_url_content env bytes ct em =
      .error ⟨"ERR_FETCH_PDF_PARSE", "PDF exceeds the allowed size limit"⟩ := by
  unfold fetch_url_content
  simp [h1, h2]

/-- A fetch environment whose PDF extractor fails structurally (its message
mentions neither encryption nor passwords). -/
def badPdfEnv : FetchEnv :=
  ⟨fun _ => .error "broken xref table",
   ⟨fun _ => none, fun _ => none, fun _ _ => ("", false), fun _ => "UTF-8"⟩,
   fun _ => .container [],
   fun s => .ok s⟩

/-- A synthetic PDF buffer one byte over the 500 MiB ceiling. -/
def hugePdfBytes : List Nat := List.replicate (PDF_LIMIT_BYTES + 1) 37

theorem hugePdfBytes_length : hugePdfBytes.length = PDF_LIMIT_BYTES + 1 := by
  simp [hugePdfBytes]

theorem hugePdfBytes_is_pdf :
    is_pdf (some "application/pdf") (hugePdfBytes.take 512) = true := by
  have hct :
      strContains (asciiLower "application/pdf") "application/pdf" = true := by
    decide
  simp [is_pdf, hct]

/-- Claim C5, counterexample: the oversized-PDF failure and the generic
parse failure carry the *same* machine-readable code
(`ERR_FETCH_PDF_PARSE`), so the size failure is not a distinct error kind. -/
theorem claim5_counterexample :
    fetch_url_content badPdfEnv hugePdfBytes (some "application/pdf") true =
      .error ⟨"ERR_FETCH_PDF_PARSE", "PDF exceeds the allowed size limit"⟩ ∧
    fetch_url_content badPdfEnv PDF_MAGIC (some "application/pdf") true =
      .error ⟨"ERR_FETCH_PDF_PARSE", "Failed to parse PDF content"⟩ := by
  constructor
  · have h2 : hugePdfBytes.length > PDF_LIMIT_BYTES := by
      rw [hugePdfBytes_length]; exact Nat.lt_succ_self _
    unfold fetch_url_content
    simp [hugePdfBytes_is_pdf, h2]
  · rfl

/-- Witness for C5 (amended), at the oversized buffer. -/
theorem claim5_witness :
    fetch_url_content badPdfEnv hugePdfBytes (some "application/pdf") true =
      .error ⟨"ERR_FETCH_PDF_PARSE", "PDF exceeds the allowed size limit"⟩ :=
  claim5_theorem badPdfEnv hugePdfBytes (some "application/pdf") true
    hugePdfBytes_is_pdf
    (by rw [hugePdfBytes_length]; exact Nat.lt_succ_self _)

/-- Helper for C6: with no qualifying candidate, the Stage-2 scan keeps its
`none` accumulator to the end. -/
theorem stage2Loop_skip : ∀ es : List HtmlNode,
    (∀ e ∈ es, posRegexMatch (attrTokens e) = true →
      trimmedTextLen e < MIN_DYNAMIC_TEXT_CHARS) →
    stage2Loop es none = none
  | [], _ => rfl
  | e :: rest, h => by
    have hrest := fun x hx => h x (List.mem_cons_of_mem _ hx)
    have htail := stage2Loop_skip rest hrest
    unfold stage2Loop
    split_ifs with h1 h2 h3 h4
    · exact htail
    · exact htail
    · exact htail
    · exact absurd (h e (List.mem_cons_self e rest) h3) h4
    · exact htail

/-- Claim C6: every element whose class/id token string matches the positive
pattern but whose trimmed text is under 180 characters is rejected by
Stage 2; if additionally no curated selector matched, the whole selection
never produces a `MainFragment` — it falls through to the body/full-document
fallback. -/
theorem claim6_theorem (html : String) (doc : HtmlNode)
    (h1 : ∀ e ∈ classIdElements doc, posRegexMatch (attrTokens e) = true →
      trimmedTextLen e < MIN_DYNAMIC_TEXT_CHARS)
    (h2 : curatedLoop MAIN_SELECTORS doc = none) :
    select_by_positive_regex doc = none ∧
    ∀ f, extract_main_content_fragment html doc ≠ some (.Main f) := by
  have hsel : select_by_positive_regex doc = none := by
    unfold select_by_positive_regex
    rw [stage2Loop_skip _ h1]
    rfl
  refine ⟨hsel, ?_⟩
  intro f
  unfold extract_main_content_fragment
  by_cases hw : (rustTrim html == "") = true
  · simp [hw]
  · rw [h2, hsel]
    simp only [Bool.not_eq_true] at hw
    rw [hw]
    unfold bodyFallback
    cases hb : firstMatch doc (.tagSel "body") with
    | none => simp
    | some b => split_ifs <;> simp

/-- Witness for C6, at a document whose only class-bearing element matches
the positive pattern with five characters of text. -/
theorem claim6_witness :
    select_by_positive_regex shortPositiveDoc = none ∧
    extract_main_content_fragment shortPositiveHtml shortPositiveDoc
      ≠ some (.Main "<div class=\"content\">short</div>") :=
  ⟨(claim6_theorem shortPositiveHtml shortPositiveDoc (by decide)
      (by decide)).1,
   (claim6_theorem shortPositiveHtml shortPositiveDoc (by decide)
      (by decide)).2 "<div class=\"content\">short</div>"⟩

/-- The parse of
`<html><body><script>evil()</script><p>Hello</p></body></html>`. -/
def scriptHelloDoc : HtmlNode :=
  .container [.element "html" [] [.element "head" [] [],
    .element "body" [] [.element "script" [] [.textNode "evil()"],
      .element "p" [] [.textNode "Hello"]]]]

/-- Helper for C7: the chrome remover runs first and skips `script` subtrees
entirely, whatever their attributes, children, or the walker state. -/
theorem visit_skips_script (attrs : List (String × String))
    (cs : List HtmlNode) (w : MarkdownWriter) :
    visit_node w (.element "script" attrs cs) = w := by
  simp [visit_node, runStartHandlers, allHandlers, webpageChromeRemover,
    chromeStart]

theorem visit_skips_head (attrs : List (String × String))
    (cs : List HtmlNode) (w : MarkdownWriter) :
    visit_node w (.element "head" attrs cs) = w := by
  simp [visit_node, runStartHandlers, allHandlers, webpageChromeRemover,
    chromeStart]

theorem visit_skips_style (attrs : List (String × String))
    (cs : List HtmlNode) (w : MarkdownWriter) :
    visit_node w (.element "style" attrs cs) = w := by
  simp [visit_node, runStartHandlers, allHandlers, webpageChromeRemover,
    chromeStart]

theorem visit_skips_nav (attrs : List (String × String))
    (cs : List HtmlNode) (w : MarkdownWriter) :
    visit_node w (.element "nav" attrs cs) = w := by
  simp [visit_node, runStartHandlers, allHandlers, webpageChromeRemover,
    chromeStart]

theorem visit_skips_footer (attrs : List (String × String))
    (cs : List HtmlNode) (w : MarkdownWriter) :
    visit_node w (.element "footer" attrs cs) = w := by
  simp [visit_node, runStartHandlers, allHandlers, webpageChromeRemover,
    chromeStart]

theorem visit_skips_aside (attrs : List (String × String))
    (cs : List HtmlNode) (w : MarkdownWriter) :
    visit_node w (.element "aside" attrs cs) = w := by
  simp [visit_node, runStartHandlers, allHandlers, webpageChromeRemover,
    chromeStart]

/-- Claim C7: converting
`<html><body><script>evil()</script><p>Hello</p></body></html>` yields output
containing `Hello` and not containing `evil`; and subtrees rooted at `head`,
`script`, `style`, `nav`, `footer` or `aside` are skipped entirely — visiting
them leaves the walker state untouched and emits no text. -/
theorem claim7_theorem :
    strContains (convert_html_to_markdown scriptHelloDoc) "Hello" = true ∧
    strContains (convert_html_to_markdown scriptHelloDoc) "evil" = false ∧
    (∀ attrs cs w, visit_node w (.element "head" attrs cs) = w) ∧
    (∀ attrs cs w, visit_node w (.element "script" attrs cs) = w) ∧
    (∀ attrs cs w, visit_node w (.element "style" attrs cs) = w) ∧
    (∀ attrs cs w, visit_node w (.element "nav" attrs cs) = w) ∧
    (∀ attrs cs w, visit_node w (.element "footer" attrs cs) = w) ∧
    (∀ attrs cs w, visit_node w (.element "aside" attrs cs) = w) := by
  have hconv : convert_html_to_markdown scriptHelloDoc = "Hello" := by
    simp [convert_html_to_markdown, scriptHelloDoc, visit_node,
      visit_children, visit_text, runStartHandlers, runEndHandlers,
      runTextHandlers, allHandlers, webpageChromeRemover, paragraphHandler,
      headingHandler, listHandler, tableHandler, styledTextHandler,
      linkHandler, imageHandler, codeHandler, chromeStart, paragraphStart,
      paragraphNeedsSpace, headingStart, listStart, tableStart, styledMark,
      linkStart, linkEnd, imageStart, codeStart, codeEnd, codeText,
      defaultStart, defaultEnd, defaultText, headingEnd, listEnd, tableEnd,
      headingShould, tableShould, pushStr, is_inside, newWriter,
      HtmlElement.attr, HtmlElement.classes, HtmlElement.hasAnyClasses,
      HtmlElement.hasClass, HtmlElement.isInline, inlineElements,
      chromeClassList, chromeIdSkip, strContains, listInfixP, listPrefixP,
      asciiLower, asciiLowerChar, prettify_markdown, collapseTripleNl,
      regexWs, rustTrim, defaultTextClean, isNRT, endsWithStr, sepRow]
  rw [hconv]
  exact ⟨by decide, by decide, visit_skips_head, visit_skips_script,
    visit_skips_style, visit_skips_nav, visit_skips_footer,
    visit_skips_aside⟩

/-- `<thead><tr><th>A</th><th>B</th></tr></thead>` as parsed. -/
def theadNode : HtmlNode :=
  .element "thead" [] [.element "tr" [] [
    .element "th" [] [.textNode "A"], .element "th" [] [.textNode "B"]]]

/-- `<tbody><tr><td>1</td><td>2</td></tr></tbody>` as parsed. -/
def tbodyNode : HtmlNode :=
  .element "tbody" [] [.element "tr" [] [
    .element "td" [] [.textNode "1"], .element "td" [] [.textNode "2"]]]

/-- The 2-column, 2-row table element of claim C9. -/
def tableNode : HtmlNode := .element "table" [] [theadNode, tbodyNode]

/-- The parse of
`<table><thead>…</thead><tbody>…</tbody></table>` as a document (the parser
wraps the table in `html`/`head`/`body`). -/
def tableDoc : HtmlNode :=
  .container [.element "html" [] [.element "head" [] [],
    .element "body" [] [tableNode]]]

set_option maxHeartbeats 4000000 in
/-- Claim C9: converting the 2×2 table produces the header row, then the
`| --- | --- |` separator, then the data row, in that order. -/
theorem claim9_theorem :
    convert_html_to_markdown tableDoc
      = "| A | B |\n| --- | --- |\n| 1 | 2 |" := by
  have hThead : visit_node
      ⟨[⟨"table", []⟩, ⟨"body", []⟩, ⟨"html", []⟩], "", 0, true, true⟩
      theadNode =
      ⟨[⟨"table", []⟩, ⟨"body", []⟩, ⟨"html", []⟩],
        "\n\n\n| A | B |\n| --- | --- |", 2, true, true⟩ := by
    simp [theadNode, visit_node, visit_children, visit_text,
      runStartHandlers, runEndHandlers, runTextHandlers, allHandlers,
      webpageChromeRemover, paragraphHandler, headingHandler, listHandler,
      tableHandler, styledTextHandler, linkHandler, imageHandler,
      codeHandler, chromeStart, paragraphStart, paragraphNeedsSpace,
      headingStart, listStart, tableStart, styledMark, linkStart, linkEnd,
      imageStart, codeStart, codeEnd, codeText, defaultStart, defaultEnd,
      defaultText, headingEnd, listEnd, tableEnd, headingShould,
      tableShould, pushStr, is_inside, HtmlElement.attr,
      HtmlElement.classes, HtmlElement.hasAnyClasses, HtmlElement.hasClass,
      HtmlElement.isInline, inlineElements, chromeClassList, chromeIdSkip,
      strContains, listInfixP, listPrefixP, asciiLower, asciiLowerChar,
      defaultTextClean, isNRT, endsWithStr, sepRow]
  have hTbody : visit_node
      ⟨[⟨"table", []⟩, ⟨"body", []⟩, ⟨"html", []⟩],
        "\n\n\n| A | B |\n| --- | --- |", 2, true, true⟩
      tbodyNode =
      ⟨[⟨"table", []⟩, ⟨"body", []⟩, ⟨"html", []⟩],
        "\n\n\n| A | B |\n| --- | --- |\n| 1 | 2 |", 2, true, true⟩ := by
    simp [tbodyNode, visit_node, visit_children, visit_text,
      runStartHandlers, runEndHandlers, runTextHandlers, allHandlers,
      webpageChromeRemover, paragraphHandler, headingHandler, listHandler,
      tableHandler, styledTextHandler, linkHandler, imageHandler,
      codeHandler, chromeStart, paragraphStart, paragraphNeedsSpace,
      headingStart, listStart, tableStart, styledMark, linkStart, linkEnd,
      imageStart, codeStart, codeEnd, codeText, defaultStart, defaultEnd,
      defaultText, headingEnd, listEnd, tableEnd, headingShould,
      tableShould, pushStr, is_inside, HtmlElement.attr,
      HtmlElement.classes, HtmlElement.hasAnyClasses, HtmlElement.hasClass,
      HtmlElement.isInline, inlineElements, chromeClassList, chromeIdSkip,
      strContains, listInfixP, listPrefixP, asciiLower, asciiLowerChar,
      defaultTextClean, isNRT, endsWithStr, sepRow]
  have hTable : visit_node
      ⟨[⟨"body", []⟩, ⟨"html", []⟩], "", 0, true, true⟩ tableNode =
      ⟨[⟨"body", []⟩, ⟨"html", []⟩],
        "\n\n\n| A | B |\n| --- | --- |\n| 1 | 2 |", 0, true, true⟩ := by
    simp [tableNode, visit_node.eq_2, visit_node.eq_3,
      visit_children.eq_1, visit_children.eq_2, runStartHandlers,
      runEndHandlers, allHandlers, webpageChromeRemover, paragraphHandler,
      headingHandler, listHandler, tableHandler, styledTextHandler,
      linkHandler, imageHandler, codeHandler, chromeStart, paragraphStart,
      paragraphNeedsSpace, headingStart, listStart, tableStart, styledMark,
      linkStart, linkEnd, imageStart, codeStart, codeEnd, codeText,
      defaultStart, defaultEnd, defaultText, headingEnd, listEnd, tableEnd,
      headingShould, tableShould, pushStr, is_inside, HtmlElement.attr,
      HtmlElement.classes, HtmlElement.hasAnyClasses, HtmlElement.hasClass,
      HtmlElement.isInline, inlineElements, chromeClassList, chromeIdSkip,
      strContains, listInfixP, listPrefixP, asciiLower, asciiLowerChar,
      endsWithStr, hThead, hTbody]
  have hAll : visit_node newWriter tableDoc =
      ⟨[], "\n\n\n| A | B |\n| --- | --- |\n| 1 | 2 |", 0, true, true⟩ := by
    simp [tableDoc, newWriter, visit_node.eq_2, visit_node.eq_3,
      visit_children.eq_1, visit_children.eq_2, runStartHandlers,
      runEndHandlers, allHandlers, webpageChromeRemover, paragraphHandler,
      headingHandler, listHandler, tableHandler, styledTextHandler,
      linkHandler, imageHandler, codeHandler, chromeStart, paragraphStart,
      paragraphNeedsSpace, headingStart, listStart, tableStart, styledMark,
      linkStart, linkEnd, imageStart, codeStart, codeEnd, codeText,
      defaultStart, defaultEnd, defaultText, headingEnd, listEnd, tableEnd,
      headingShould, tableShould, pushStr, is_inside, HtmlElement.attr,
      HtmlElement.classes, HtmlElement.hasAnyClasses, HtmlElement.hasClass,
      HtmlElement.isInline, inlineElements, chromeClassList, chromeIdSkip,
      strContains, listInfixP, listPrefixP, asciiLower, asciiLowerChar,
      endsWithStr, hTable]
  unfold convert_html_to_markdown
  rw [hAll]
  decide

/-! ## Claim C10: the ancestor stack is restored by every visit

No handler touches `current_element_stack`; the only pushes and pops happen
in `visit_node`, which pushes an element exactly when no handler skipped it
and pops after its children. -/

theorem chromeStart_stack (e : HtmlElement) (w : MarkdownWriter) :
    ((chromeStart e w).1).current_element_stack = w.current_element_stack := by
  unfold chromeStart
  repeat' split
  all_goals rfl

theorem paragraphStart_stack (e : HtmlElement) (w : MarkdownWriter) :
    ((paragraphStart e w).1).current_element_stack
      = w.current_element_stack := by
  unfold paragraphStart
  dsimp only
  repeat' split
  all_goals rfl

theorem headingStart_stack (e : HtmlElement) (w : MarkdownWriter) :
    ((headingStart e w).1).current_element_stack = w.current_element_stack := by
  unfold headingStart
  dsimp only
  repeat' split
  all_goals rfl

theorem headingEnd_stack (e : HtmlElement) (w : MarkdownWriter) :
    (headingEnd e w).current_element_stack = w.current_element_stack := by
  unfold headingEnd
  repeat' split
  all_goals rfl

theorem listStart_stack (e : HtmlElement) (w : MarkdownWriter) :
    ((listStart e w).1).current_element_stack = w.current_element_stack := by
  unfold listStart
  dsimp only
  repeat' split
  all_goals rfl

theorem listEnd_stack (e : HtmlElement) (w : MarkdownWriter) :
    (listEnd e w).current_element_stack = w.current_element_stack := by
  unfold listEnd
  repeat' split
  all_goals rfl

theorem tableStart_stack (e : HtmlElement) (w : MarkdownWriter) :
    ((tableStart e w).1).current_element_stack = w.current_element_stack := by
  unfold tableStart
  dsimp only
  repeat' split
  all_goals rfl

theorem tableEnd_stack (e : HtmlElement) (w : MarkdownWriter) :
    (tableEnd e w).current_element_stack = w.current_element_stack := by
  unfold tableEnd
  dsimp only
  repeat' split
  all_goals rfl

theorem styledMark_stack (e : HtmlElement) (w : MarkdownWriter) :
    (styledMark e w).current_element_stack = w.current_element_stack := by
  unfold styledMark
  repeat' split
  all_goals rfl

theorem linkStart_stack (e : HtmlElement) (w : MarkdownWriter) :
    ((linkStart e w).1).current_element_stack = w.current_element_stack := by
  unfold linkStart
  repeat' split
  all_goals rfl

theorem linkEnd_stack (e : HtmlElement) (w : MarkdownWriter) :
    (linkEnd e w).current_element_stack = w.current_element_stack := by
  unfold linkEnd
  repeat' split
  all_goals rfl

theorem imageStart_stack (e : HtmlElement) (w : MarkdownWriter) :
    ((imageStart e w).1).current_element_stack = w.current_element_stack := by
  unfold imageStart
  repeat' split
  all_goals rfl

theorem codeStart_stack (e : HtmlElement) (w : MarkdownWriter) :
    ((codeStart e w).1).current_element_stack = w.current_element_stack := by
  unfold codeStart
  dsimp only
  repeat' split
  all_goals rfl

theorem codeEnd_stack (e : HtmlElement) (w : MarkdownWriter) :
    (codeEnd e w).current_element_stack = w.current_element_stack := by
  unfold codeEnd
  repeat' split
  all_goals rfl

theorem codeText_stack (t : String) (w : MarkdownWriter) :
    ((codeText t w).1).current_element_stack = w.current_element_stack := by
  unfold codeText
  repeat' split
  all_goals rfl

/-- Every registered handler's `handle_tag_start` leaves the stack alone. -/
theorem allHandlers_start_stack :
    ∀ h ∈ allHandlers, ∀ e w,
      ((h.on_start e w).1).current_element_stack = w.current_element_stack := by
  intro h hm
  simp only [allHandlers, List.mem_cons, List.not_mem_nil, or_false] at hm
  rcases hm with rfl | rfl | rfl | rfl | rfl | rfl | rfl | rfl | rfl <;>
    intro e w
  · exact chromeStart_stack e w
  · exact paragraphStart_stack e w
  · exact headingStart_stack e w
  · exact listStart_stack e w
  · exact tableStart_stack e w
  · exact styledMark_stack e w
  · exact linkStart_stack e w
  · exact imageStart_stack e w
  · exact codeStart_stack e w

/-- Every registered handler's `handle_tag_end` leaves the stack alone. -/
theorem allHandlers_end_stack :
    ∀ h ∈ allHandlers, ∀ e w,
      (h.on_end e w).current_element_stack = w.current_element_stack := by
  intro h hm
  simp only [allHandlers, List.mem_cons, List.not_mem_nil, or_false] at hm
  rcases hm with rfl | rfl | rfl | rfl | rfl | rfl | rfl | rfl | rfl <;>
    intro e w
  · rfl
  · rfl
  · exact headingEnd_stack e w
  · exact listEnd_stack e w
  · exact tableEnd_stack e w
  · exact styledMark_stack e w
  · exact linkEnd_stack e w
  · rfl
  · exact codeEnd_stack e w

/-- Every registered handler's `handle_text` leaves the stack alone. -/
theorem allHandlers_text_stack :
    ∀ h ∈ allHandlers, ∀ t w,
      ((h.on_text t w).1).current_element_stack = w.current_element_stack := by
  intro h hm
  simp only [allHandlers, List.mem_cons, List.not_mem_nil, or_false] at hm
  rcases hm with rfl | rfl | rfl | rfl | rfl | rfl | rfl | rfl | rfl <;>
    intro t w
  · rfl
  · rfl
  · rfl
  · rfl
  · rfl
  · rfl
  · rfl
  · rfl
  · exact codeText_stack t w

theorem runStartHandlers_stack : ∀ (hs : List TagHandler),
    (∀ h ∈ hs, ∀ e w,
      ((h.on_start e w).1).current_element_stack = w.current_element_stack) →
    ∀ el w, ((runStartHandlers hs el w).1).current_element_stack
      = w.current_element_stack
  | [], _, el, w => rfl
  | h :: hs, hp, el, w => by
    have hhead : ∀ e v,
        ((h.on_start e v).1).current_element_stack
          = v.current_element_stack :=
      hp h (List.mem_cons_self h hs)
    have htail := runStartHandlers_stack hs
      (fun x hx => hp x (List.mem_cons_of_mem h hx))
    unfold runStartHandlers
    by_cases hsh : h.should_handle el.tag
    · simp only [hsh, if_true]
      rcases hst : h.on_start el w with ⟨w1, oc⟩
      have h1 : w1.current_element_stack = w.current_element_stack := by
        have := hhead el w
        rw [hst] at this
        exact this
      cases oc with
      | Skip => exact h1
      | Continue => rw [htail el w1, h1]
    · simp only [hsh, if_false]
      exact htail el w

theorem runEndHandlers_stack : ∀ (hs : List TagHandler),
    (∀ h ∈ hs, ∀ e w,
      (h.on_end e w).current_element_stack = w.current_element_stack) →
    ∀ el w, (runEndHandlers hs el w).current_element_stack
      = w.current_element_stack
  | [], _, el, w => rfl
  | h :: hs, hp, el, w => by
    have hhead := hp h (List.mem_cons_self h hs)
    have htail := runEndHandlers_stack hs
      (fun x hx => hp x (List.mem_cons_of_mem h hx))
    unfold runEndHandlers
    by_cases hsh : h.should_handle el.tag
    · simp only [hsh, if_true]
      rw [htail el (h.on_end el w), hhead el w]
    · simp only [hsh, if_false]
      exact htail el w

theorem runTextHandlers_stack : ∀ (hs : List TagHandler),
    (∀ h ∈ hs, ∀ t w,
      ((h.on_text t w).1).current_element_stack = w.current_element_stack) →
    ∀ t w, ((runTextHandlers hs t w).1).current_element_stack
      = w.current_element_stack
  | [], _, t, w => rfl
  | h :: hs, hp, t, w => by
    have hhead : ∀ u v,
        ((h.on_text u v).1).current_element_stack
          = v.current_element_stack :=
      hp h (List.mem_cons_self h hs)
    have htail := runTextHandlers_stack hs
      (fun x hx => hp x (List.mem_cons_of_mem h hx))
    unfold runTextHandlers
    rcases hst : h.on_text t w with ⟨w1, oc⟩
    have h1 : w1.current_element_stack = w.current_element_stack := by
      have := hhead t w
      rw [hst] at this
      exact this
    cases oc with
    | Handled => exact h1
    | NoOp => rw [htail t w1, h1]

theorem visit_text_stack (w : MarkdownWriter) (t : String) :
    (visit_text w t).current_element_stack = w.current_element_stack := by
  unfold visit_text
  rcases hr : runTextHandlers allHandlers t w with ⟨w1, oc⟩
  have h1 : w1.current_element_stack = w.current_element_stack := by
    have := runTextHandlers_stack allHandlers allHandlers_text_stack t w
    rw [hr] at this
    exact this
  cases oc with
  | Handled => exact h1
  | NoOp => exact h1

mutual

theorem visit_node_stack : ∀ (w : MarkdownWriter) (n : HtmlNode),
    (visit_node w n).current_element_stack = w.current_element_stack
  | w, .textNode t => by
    rw [visit_node.eq_1]
    exact visit_text_stack w t
  | w, .container cs => by
    rw [visit_node.eq_2]
    exact visit_children_stack w cs
  | w, .element tag attrs cs => by
    rw [visit_node.eq_3]
    by_cases htag : (tag == "") = true
    · simp only [htag, if_true]
      exact visit_children_stack w cs
    · rw [if_neg htag]
      dsimp only
      rcases hst : runStartHandlers allHandlers ⟨tag, attrs⟩ w with ⟨w1, oc⟩
      have h1 : w1.current_element_stack = w.current_element_stack := by
        have := runStartHandlers_stack allHandlers allHandlers_start_stack
          ⟨tag, attrs⟩ w
        rw [hst] at this
        exact this
      cases oc with
      | Skip => exact h1
      | Continue =>
        dsimp only
        rw [runEndHandlers_stack allHandlers allHandlers_end_stack ⟨tag, attrs⟩]
        rw [visit_children_stack]
        simp [h1]

theorem visit_children_stack : ∀ (w : MarkdownWriter) (ns : List HtmlNode),
    (visit_children w ns).current_element_stack = w.current_element_stack
  | w, [] => by rw [visit_children.eq_1]
  | w, n :: ns => by
    rw [visit_children.eq_2]
    rw [visit_children_stack (visit_node w n) ns]
    exact visit_node_stack w n

end

/-- Claim C10: every visit restores the ancestor stack exactly as it found
it; a traversal started from a fresh writer therefore ends with an empty
stack; and `is_inside tag` holds exactly when some element on the current
ancestor stack has that tag name. -/
theorem claim10_theorem :
    (∀ (w : MarkdownWriter) (n : HtmlNode),
      (visit_node w n).current_element_stack = w.current_element_stack) ∧
    (∀ n : HtmlNode, (visit_node newWriter n).current_element_stack = []) ∧
    (∀ (w : MarkdownWriter) (tag : String),
      is_inside w tag = true ↔
        ∃ el ∈ w.current_element_stack, el.tag = tag) := by
  refine ⟨visit_node_stack, ?_, ?_⟩
  · intro n
    rw [visit_node_stack newWriter n]
    rfl
  · intro w tag
    simp [is_inside, List.any_eq_true]

end Getweb
